import Mathlib

/-
Verification of the navigation-link resolution core of a VuePress
documentation site, embedded from src/.vuepress/theme/NavLinks.vue: the
computed properties userNav (line 36), nav (lines 38-67), userLinks
(lines 68-74), repoLink (lines 75-82) and repoLabel (lines 83-99).
The per-record normalizer resolveNavLinkItem, imported from './util', is
the only piece of this logic absent from the sources; it is modelled from
the design specification and marked as such below.
-/

namespace NavLinks

/-- Tag distinguishing a plain navigation link from a dropdown group
(the code's type field: 'link' versus 'links'). -/
inductive NavKind where
  | plainLink
  | dropdown
deriving DecidableEq, Repr

/-- A child item of a dropdown group: always a leaf link. -/
structure NavItem where
  text : String
  link : String
deriving DecidableEq, Repr

/-- A normalized navigation entry (plain link or dropdown group). -/
structure NavEntry where
  text : String
  link : String
  items : List NavItem
  kind : NavKind
deriving DecidableEq, Repr

/-- A loosely-shaped raw child record: a plain link record with optional
fields, as found in the theme configuration's nav entries. -/
structure RawChild where
  text : Option String
  link : Option String
deriving DecidableEq, Repr

/-- A loosely-shaped raw navigation record: either a plain link record
(text, link) or a group record (text, items), with every field optional. -/
structure RawNavRecord where
  text : Option String
  link : Option String
  items : Option (List RawChild)
deriving DecidableEq, Repr

/-- One entry of the site's locales mapping (NavLinks.vue line 47:
locales[path]); only its lang field is read by this component. -/
structure SiteLocale where
  lang : String
deriving DecidableEq, Repr

/-- One entry of the theme configuration's locales mapping (NavLinks.vue
line 48: themeLocales[path]); only its label field is read here. -/
structure ThemeLocale where
  label : Option String
deriving DecidableEq, Repr

/-- Decidable equality for Except results, so throwing behaviour can be
checked on concrete inputs. -/
instance {ε α : Type} [DecidableEq ε] [DecidableEq α] : DecidableEq (Except ε α) :=
  fun a b =>
    match a, b with
    | Except.ok x, Except.ok y =>
        if h : x = y then Decidable.isTrue (by rw [h])
        else Decidable.isFalse (fun hc => h (Except.ok.inj hc))
    | Except.error x, Except.error y =>
        if h : x = y then Decidable.isTrue (by rw [h])
        else Decidable.isFalse (fun hc => h (Except.error.inj hc))
    | Except.ok _, Except.error _ => Decidable.isFalse (fun hc => Except.noConfusion hc)
    | Except.error _, Except.ok _ => Decidable.isFalse (fun hc => Except.noConfusion hc)

/-- The JavaScript string-truthiness fallback a || b: an absent or empty
string falls back to the default. -/
def orDefault (v : Option String) (dflt : String) : String :=
  match v with
  | some s => if s = "" then dflt else s
  | none => dflt

/-- Does the character list start with the given pattern? -/
def startsWithChars : List Char → List Char → Bool
  | _, [] => true
  | [], _ :: _ => false
  | c :: cs, p :: ps => c = p && startsWithChars cs ps

/-- Replace the first occurrence of a pattern inside a character list. -/
def replaceFirstChars (pat rep : List Char) : List Char → List Char
  | [] => if startsWithChars [] pat then rep else []
  | c :: cs =>
      if startsWithChars (c :: cs) pat then rep ++ (c :: cs).drop pat.length
      else c :: replaceFirstChars pat rep cs

/-- Replace the first occurrence of a pattern inside a string: the
semantics of JavaScript's String.replace with a string pattern, used at
NavLinks.vue line 55. -/
def replaceFirst (s pat rep : String) : String :=
  String.mk (replaceFirstChars pat.data rep.data s.data)

/-- Does the string start with the given pattern? -/
def strStartsWith (s pat : String) : Bool :=
  startsWithChars s.data pat.data

/-- Everything of the character list up to (excluding) the first slash. -/
def takeUntilSlash : List Char → List Char
  | [] => []
  | c :: cs => if c = '/' then [] else c :: takeUntilSlash cs

/-- Lower-case every character of a character list. -/
def lowerChars (cs : List Char) : List Char := cs.map Char.toLower

/-- Does the first character list contain the second as a contiguous run? -/
def containsSub : List Char → List Char → Bool
  | [], pat => pat.isEmpty
  | c :: cs, pat => startsWithChars (c :: cs) pat || containsSub cs pat

/-- Modelled from the spec: the per-record normalizer resolveNavLinkItem,
imported from './util' at NavLinks.vue line 28, is absent from the sources.
A raw child record is normalized into a leaf NavItem, substituting
empty-string defaults for absent fields. -/
def resolveChild (c : RawChild) : NavItem :=
  { text := c.text.getD "", link := c.link.getD "" }

/-- Modelled from the spec: the per-record normalizer resolveNavLinkItem,
imported from './util' at NavLinks.vue line 28, is absent from the sources.
A record carrying items becomes a dropdown whose children are each
normalized as plain links (one level of nesting only); otherwise it becomes
a plain link, degenerating to an empty target when the link field is
absent. -/
def resolveRecord (r : RawNavRecord) : NavEntry :=
  match r.items with
  | some cs =>
      { text := r.text.getD "", link := r.link.getD "",
        items := cs.map resolveChild, kind := NavKind.dropdown }
  | none =>
      { text := r.text.getD "", link := r.link.getD "",
        items := [], kind := NavKind.plainLink }

/-- The userLinks computed property (NavLinks.vue lines 68-74): every
record of the merged nav list is resolved, one NavEntry per record, with
children resolved as leaf links. -/
def userLinks (navList : List RawNavRecord) : List NavEntry :=
  navList.map resolveRecord

/-- The userNav computed property (NavLinks.vue line 36):
themeLocaleConfig.nav or else site themeConfig.nav or else the empty list,
where a defined array (even empty) is truthy. -/
def userNav (localeNav siteNav : Option (List RawNavRecord)) : List RawNavRecord :=
  match localeNav with
  | some nav => nav
  | none =>
      match siteNav with
      | some nav => nav
      | none => []

/-- One item of the language dropdown (NavLinks.vue lines 46-62): its text
is the theme locale's label when present and truthy, else the locale's
lang; its link stays on the current page for the active language, else
rewrites the current locale path segment and falls back to the candidate
locale's path when the rewritten path is not a known route. -/
def localeSwitchItem (themeLocales : List (String × ThemeLocale))
    (currentPath : String) (knownRoutePaths : List String)
    (localePath currentLang : String) (p : String × SiteLocale) : RawChild :=
  { text := some (orDefault ((themeLocales.lookup p.1).bind ThemeLocale.label) p.2.lang),
    link := some (if p.2.lang = currentLang then currentPath
                  else
                    let candidate := replaceFirst currentPath localePath p.1
                    if knownRoutePaths.contains candidate then candidate else p.1) }

/-- The raw language-switcher dropdown record built inside the nav computed
property (NavLinks.vue lines 43-63), before any resolution. -/
def languageDropdown (locales : List (String × SiteLocale))
    (themeLocales : List (String × ThemeLocale)) (currentPath : String)
    (knownRoutePaths : List String) (localePath currentLang : String)
    (selectText : Option String) : RawNavRecord :=
  { text := some (orDefault selectText "Languages"),
    link := none,
    items := some (locales.map
      (localeSwitchItem themeLocales currentPath knownRoutePaths localePath currentLang)) }

/-- The nav computed property (NavLinks.vue lines 38-67): when the site has
more than one locale, the raw language dropdown is appended after the raw
user nav; otherwise the user nav passes through unchanged. -/
def nav (u : List RawNavRecord) (locales : List (String × SiteLocale))
    (themeLocales : List (String × ThemeLocale)) (currentPath : String)
    (knownRoutePaths : List String) (localePath currentLang : String)
    (selectText : Option String) : List RawNavRecord :=
  if 1 < locales.length then
    u ++ [languageDropdown locales themeLocales currentPath knownRoutePaths
            localePath currentLang selectText]
  else u

/-- The repoLink computed property (NavLinks.vue lines 75-82): a falsy
(absent or empty) repo reference gives no link; a reference passing the
^https?: test passes through; anything else gains the GitHub base URL. -/
def repoLink (repo : Option String) : Option String :=
  match repo with
  | none => none
  | some r =>
      if r = "" then none
      else if strStartsWith r "http:" || strStartsWith r "https:" then some r
      else some ("https://github.com/" ++ r)

/-- The origin match at NavLinks.vue line 90: the regex
^https?://[^/]+ applied to the repo link, none when it does not match
(in which case the code's [0] indexing throws a TypeError). -/
def matchOrigin (l : String) : Option String :=
  if strStartsWith l "https://" then
    let host := takeUntilSlash (l.data.drop 8)
    if host.isEmpty then none
    else some (String.mk ('h' :: 't' :: 't' :: 'p' :: 's' :: ':' :: '/' :: '/' :: host))
  else if strStartsWith l "http://" then
    let host := takeUntilSlash (l.data.drop 7)
    if host.isEmpty then none
    else some (String.mk ('h' :: 't' :: 't' :: 'p' :: ':' :: '/' :: '/' :: host))
  else none

/-- The fixed ordered list of platform names (NavLinks.vue line 91). -/
def platforms : List String := ["GitHub", "GitLab", "Bitbucket"]

/-- The case-insensitive platform pattern test of NavLinks.vue line 94:
new RegExp(platform, i-flag).test(repoHost), a platform name being a
regex without special characters. -/
def platformTest (repoHost p : String) : Bool :=
  containsSub (lowerChars repoHost.data) (lowerChars p.data)

/-- The host-based label computation (NavLinks.vue lines 90-98): extract
the origin — throwing, embedded as Except.error, when the regex match is
null — then return the first platform whose pattern matches, else the
generic Source label. -/
def hostLabel (l : String) : Except String (Option String) :=
  match matchOrigin l with
  | none => Except.error "TypeError"
  | some repoHost =>
      Except.ok (some ((platforms.find? (fun p => platformTest repoHost p)).getD "Source"))

/-- The repoLabel computed property (NavLinks.vue lines 83-99): a falsy
repo link gives no label; a truthy (non-empty) explicit label wins
verbatim; otherwise the label is computed from the link's origin, which
can throw. -/
def repoLabel (repoLinkVal explicitLabel : Option String) : Except String (Option String) :=
  match repoLinkVal with
  | none => Except.ok none
  | some l =>
      if l = "" then Except.ok none
      else
        match explicitLabel with
        | some lab => if lab = "" then hostLabel l else Except.ok (some lab)
        | none => hostLabel l

/-- The two-locale configuration from the specification's scenario. -/
def demoLocales : List (String × SiteLocale) :=
  [("/", { lang := "en-US" }), ("/fr/", { lang := "fr-FR" })]

/-- A sample raw navigation record. -/
def demoRecord : RawNavRecord :=
  { text := some "Home", link := some "/", items := none }

theorem nav_eq_self {u : List RawNavRecord} {locales : List (String × SiteLocale)}
    {themeLocales : List (String × ThemeLocale)} {currentPath : String}
    {knownRoutePaths : List String} {localePath currentLang : String}
    {selectText : Option String} (h : locales.length ≤ 1) :
    nav u locales themeLocales currentPath knownRoutePaths localePath currentLang selectText
      = u := by
  simp only [nav]
  rw [if_neg (by omega)]

theorem nav_eq_append {u : List RawNavRecord} {locales : List (String × SiteLocale)}
    {themeLocales : List (String × ThemeLocale)} {currentPath : String}
    {knownRoutePaths : List String} {localePath currentLang : String}
    {selectText : Option String} (h : 1 < locales.length) :
    nav u locales themeLocales currentPath knownRoutePaths localePath currentLang selectText
      = u ++ [languageDropdown locales themeLocales currentPath knownRoutePaths
                localePath currentLang selectText] := by
  simp only [nav]
  rw [if_pos h]

/-- C1: In the locale switcher built by the nav computed property, every
configured locale's target link follows the exact priority: same language
tag as the current one gives currentPath unchanged; otherwise the candidate
is currentPath with the current locale's path segment replaced by the
candidate locale's path, and if that candidate is not an exact member of
the known route paths the link falls back to the candidate locale's bare
path. -/
theorem nav_link_priority
    (u : List RawNavRecord) (locales : List (String × SiteLocale))
    (themeLocales : List (String × ThemeLocale)) (currentPath : String)
    (knownRoutePaths : List String) (localePath currentLang : String)
    (selectText : Option String)
    (hl : 1 < locales.length) (i : Nat) (hi : i < locales.length) :
    ((nav u locales themeLocales currentPath knownRoutePaths localePath currentLang
          selectText).getLast?.bind (fun r => (r.items.getD [])[i]?)).map RawChild.link
      = some (some (if (locales[i]).2.lang = currentLang then currentPath
              else if knownRoutePaths.contains
                       (replaceFirst currentPath localePath (locales[i]).1)
                   then replaceFirst currentPath localePath (locales[i]).1
                   else (locales[i]).1)) := by
  rw [nav_eq_append hl, List.getLast?_concat]
  simp [languageDropdown, localeSwitchItem, List.getElem?_map, List.getElem?_eq_getElem hi]

/-- Witness for C1: the specification's scenario. With known route
"/fr/guide/intro.html" present the French entry links there; with the known
routes empty it falls back to "/fr/". -/
theorem nav_link_priority_witness :
    ((nav [] demoLocales [] "/guide/intro.html" ["/fr/guide/intro.html"] "/" "en-US"
          none).getLast?.bind (fun r => (r.items.getD [])[1]?)).map RawChild.link
      = some (some "/fr/guide/intro.html")
  ∧ ((nav [] demoLocales [] "/guide/intro.html" [] "/" "en-US"
          none).getLast?.bind (fun r => (r.items.getD [])[1]?)).map RawChild.link
      = some (some "/fr/") := by
  constructor
  · rw [nav_link_priority [] demoLocales [] "/guide/intro.html"
      ["/fr/guide/intro.html"] "/" "en-US" none (by decide) 1 (by decide)]
    decide
  · rw [nav_link_priority [] demoLocales [] "/guide/intro.html"
      [] "/" "en-US" none (by decide) 1 (by decide)]
    decide

/-- Counterexample for C2: the program is not total — repoLabel throws a
TypeError when the repo link passes the ^https?: test but its origin does
not match the ^https?://[^/]+ regex, as for the link "http:x" (which
repoLink passes through unchanged). -/
theorem operations_total_counterexample :
    repoLabel (some "http:x") none = Except.error "TypeError"
  ∧ repoLink (some "http:x") = some "http:x" := by
  constructor <;> decide

/-- C2 amended: userLinks, nav and repoLink are total with safe defaults
(degenerate plain link with empty target, one entry per record, absent
results, base list or base list plus switcher), and repoLabel returns a
result whenever the link is absent, the link's origin matches the
scheme-and-host pattern, or a non-empty explicit label is given — but not
in general. -/
theorem operations_total_amended :
    (∀ r : RawNavRecord, r.link = none → r.items = none →
        resolveRecord r
          = { text := r.text.getD "", link := "", items := [], kind := NavKind.plainLink })
  ∧ (∀ navList : List RawNavRecord, (userLinks navList).length = navList.length)
  ∧ repoLink none = none
  ∧ repoLink (some "") = none
  ∧ (∀ lab, repoLabel none lab = Except.ok none)
  ∧ (∀ url lab, matchOrigin url ≠ none → ∃ s, repoLabel (some url) lab = Except.ok s)
  ∧ (∀ url lab, lab ≠ "" → ∃ s, repoLabel (some url) (some lab) = Except.ok s)
  ∧ (∀ (u : List RawNavRecord) locales themeLocales currentPath knownRoutePaths
        localePath currentLang selectText,
        nav u locales themeLocales currentPath knownRoutePaths localePath currentLang
          selectText = u
      ∨ nav u locales themeLocales currentPath knownRoutePaths localePath currentLang
          selectText
          = u ++ [languageDropdown locales themeLocales currentPath knownRoutePaths
                    localePath currentLang selectText]) := by
  refine ⟨?_, ?_, rfl, by decide, fun lab => rfl, ?_, ?_, ?_⟩
  · intro r h1 h2
    simp [resolveRecord, h1, h2]
  · intro navList
    simp [userLinks]
  · intro url lab h
    by_cases hu : url = ""
    · exact ⟨none, by simp [repoLabel, hu]⟩
    · cases hmo : matchOrigin url with
      | none => exact absurd hmo h
      | some host =>
        cases lab with
        | none =>
          exact ⟨some ((platforms.find? (fun p => platformTest host p)).getD "Source"),
            by simp [repoLabel, hostLabel, hu, hmo]⟩
        | some lab =>
          by_cases hlab : lab = ""
          · exact ⟨some ((platforms.find? (fun p => platformTest host p)).getD "Source"),
              by simp [repoLabel, hostLabel, hu, hlab, hmo]⟩
          · exact ⟨some lab, by simp [repoLabel, hu, hlab]⟩
  · intro url lab hlab
    by_cases hu : url = ""
    · exact ⟨none, by simp [repoLabel, hu]⟩
    · exact ⟨some lab, by simp [repoLabel, hu, hlab]⟩
  · intro u locales themeLocales currentPath knownRoutePaths localePath currentLang selectText
    by_cases h : 1 < locales.length
    · exact Or.inr (nav_eq_append h)
    · exact Or.inl (nav_eq_self (by omega))

/-- Witness for C2: the degenerate record with every field absent resolves
to a plain link with empty text and empty target, and a well-formed GitHub
link derives a label without raising. -/
theorem operations_total_amended_witness :
    resolveRecord { text := none, link := none, items := none }
      = { text := "", link := "", items := [], kind := NavKind.plainLink }
  ∧ ∃ s, repoLabel (some "https://github.com/acme/widget") none = Except.ok s := by
  obtain ⟨h1, -, -, -, -, h6, -, -⟩ := operations_total_amended
  exact ⟨by simpa using h1 { text := none, link := none, items := none } rfl rfl,
    h6 "https://github.com/acme/widget" none (by decide)⟩

/-- C3: When the locales mapping has more than one entry, the resolved
output has length one more than the resolved base links, the base entries
appear first unchanged and in order, and the appended final entry is a
dropdown. -/
theorem nav_appends
    (u : List RawNavRecord) (locales : List (String × SiteLocale))
    (themeLocales : List (String × ThemeLocale)) (currentPath : String)
    (knownRoutePaths : List String) (localePath currentLang : String)
    (selectText : Option String) (h : 1 < locales.length) :
    (userLinks (nav u locales themeLocales currentPath knownRoutePaths localePath
        currentLang selectText)).length = (userLinks u).length + 1
  ∧ (userLinks (nav u locales themeLocales currentPath knownRoutePaths localePath
        currentLang selectText)).take (userLinks u).length = userLinks u
  ∧ (userLinks (nav u locales themeLocales currentPath knownRoutePaths localePath
        currentLang selectText)).getLast?.map NavEntry.kind = some NavKind.dropdown := by
  rw [nav_eq_append h]
  simp only [userLinks, List.map_append, List.map_cons, List.map_nil]
  refine ⟨by simp, List.take_left _ _, ?_⟩
  rw [List.getLast?_concat]
  rfl

/-- Witness for C3: with one base record and the scenario's two locales the
resolved result has the base entry first and ends in a dropdown. -/
theorem nav_appends_witness :
    (userLinks (nav [demoRecord] demoLocales [] "/guide/intro.html"
        ["/fr/guide/intro.html"] "/" "en-US" none)).length
      = (userLinks [demoRecord]).length + 1
  ∧ (userLinks (nav [demoRecord] demoLocales [] "/guide/intro.html"
        ["/fr/guide/intro.html"] "/" "en-US" none)).take (userLinks [demoRecord]).length
      = userLinks [demoRecord]
  ∧ (userLinks (nav [demoRecord] demoLocales [] "/guide/intro.html"
        ["/fr/guide/intro.html"] "/" "en-US" none)).getLast?.map NavEntry.kind
      = some NavKind.dropdown :=
  nav_appends [demoRecord] demoLocales [] "/guide/intro.html"
    ["/fr/guide/intro.html"] "/" "en-US" none (by decide)

/-- C4: the nav computed property is the identity on the base navigation
list whenever the locales mapping has zero or one entries, both before and
after resolution. -/
theorem nav_identity
    (u : List RawNavRecord) (locales : List (String × SiteLocale))
    (themeLocales : List (String × ThemeLocale)) (currentPath : String)
    (knownRoutePaths : List String) (localePath currentLang : String)
    (selectText : Option String) (h : locales.length ≤ 1) :
    nav u locales themeLocales currentPath knownRoutePaths localePath currentLang
        selectText = u
  ∧ userLinks (nav u locales themeLocales currentPath knownRoutePaths localePath
        currentLang selectText) = userLinks u :=
  ⟨nav_eq_self h, by rw [nav_eq_self h]⟩

/-- Witness for C4: with zero locales and with one locale the base list
passes through unchanged. -/
theorem nav_identity_witness :
    (nav [demoRecord] [] [] "/a" [] "/" "en-US" none = [demoRecord]
      ∧ userLinks (nav [demoRecord] [] [] "/a" [] "/" "en-US" none)
          = userLinks [demoRecord])
  ∧ (nav [demoRecord] [("/", { lang := "en-US" })] [] "/a" [] "/" "en-US" none
        = [demoRecord]
      ∧ userLinks (nav [demoRecord] [("/", { lang := "en-US" })] [] "/a" [] "/"
          "en-US" none) = userLinks [demoRecord]) :=
  ⟨nav_identity [demoRecord] [] [] "/a" [] "/" "en-US" none (by decide),
   nav_identity [demoRecord] [("/", { lang := "en-US" })] [] "/a" [] "/" "en-US" none
     (by decide)⟩

/-- Counterexample for C5: an empty-string explicit label is falsy, so the
code falls through to platform matching instead of returning it verbatim;
and a link whose origin matches no URL shape makes the label computation
throw instead of returning the Source fallback. -/
theorem repoLabel_counterexample :
    repoLabel (some "https://gitlab.com/x/y") (some "") = Except.ok (some "GitLab")
  ∧ repoLabel (some "https://gitlab.com/x/y") (some "") ≠ Except.ok (some "")
  ∧ repoLabel (some "https:y") none = Except.error "TypeError" := by
  refine ⟨by decide, by decide, by decide⟩

/-- C5 amended: for a present repo link, a non-empty explicit label is
returned verbatim; otherwise, when the link's origin matches the
scheme-and-host pattern, the origin is tested case-insensitively against
the ordered platform list GitHub, GitLab, Bitbucket and the first match is
returned, with fallback "Source"; an absent link yields an absent label.
The spec's three examples hold. -/
theorem repoLabel_spec_amended :
    (∀ lab, repoLabel none lab = Except.ok none)
  ∧ (∀ url lab, url ≠ "" → lab ≠ "" →
        repoLabel (some url) (some lab) = Except.ok (some lab))
  ∧ (∀ url repoHost, url ≠ "" → matchOrigin url = some repoHost →
        repoLabel (some url) none
          = Except.ok (some ((platforms.find?
              (fun p => platformTest repoHost p)).getD "Source")))
  ∧ repoLabel (some "https://gitlab.com/x/y") none = Except.ok (some "GitLab")
  ∧ repoLabel (some "https://example.com/x") none = Except.ok (some "Source")
  ∧ repoLabel (some "https://gitlab.com/x/y") (some "MyRepo")
      = Except.ok (some "MyRepo") := by
  refine ⟨fun lab => rfl, ?_, ?_, by decide, by decide, by decide⟩
  · intro url lab hu hlab
    simp [repoLabel, hu, hlab]
  · intro url repoHost hu hmo
    simp [repoLabel, hostLabel, hu, hmo]

/-- Witness for C5: a non-empty explicit label wins, and a Bitbucket origin
is matched through the platform list. -/
theorem repoLabel_spec_amended_witness :
    repoLabel (some "https://gitlab.com/x/y") (some "MyLabel")
      = Except.ok (some "MyLabel")
  ∧ repoLabel (some "https://bitbucket.org/x") none
      = Except.ok (some ((platforms.find?
          (fun p => platformTest "https://bitbucket.org" p)).getD "Source")) :=
  ⟨repoLabel_spec_amended.2.1 "https://gitlab.com/x/y" "MyLabel" (by decide) (by decide),
   repoLabel_spec_amended.2.2.1 "https://bitbucket.org/x" "https://bitbucket.org"
     (by decide) (by decide)⟩

/-- C6: repoLink is absent exactly when the reference is empty or absent; a
reference beginning with http: or https: passes through unchanged; every
other non-empty reference is prefixed with the GitHub base URL. -/
theorem repoLink_spec :
    (∀ r : Option String, repoLink r = none ↔ (r = none ∨ r = some ""))
  ∧ (∀ s : String, s ≠ "" →
        (strStartsWith s "http:" || strStartsWith s "https:") = true →
        repoLink (some s) = some s)
  ∧ (∀ s : String, s ≠ "" →
        (strStartsWith s "http:" || strStartsWith s "https:") = false →
        repoLink (some s) = some ("https://github.com/" ++ s)) := by
  refine ⟨?_, ?_, ?_⟩
  · intro r
    cases r with
    | none => simp [repoLink]
    | some s =>
      by_cases hs : s = ""
      · simp [repoLink, hs]
      · simp only [repoLink, hs, if_false]
        constructor
        · intro hcontra
          by_cases hw : (strStartsWith s "http:" || strStartsWith s "https:") = true
          · rw [if_pos hw] at hcontra
            exact absurd hcontra (by simp)
          · rw [if_neg hw] at hcontra
            exact absurd hcontra (by simp)
        · intro hcontra
          rcases hcontra with hc | hc
          · exact absurd hc (by simp)
          · exact absurd (Option.some.inj hc) hs
  · intro s hs hw
    simp [repoLink, hs, hw]
  · intro s hs hw
    simp [repoLink, hs, hw]

/-- Witness for C6: the spec's examples — a full URL passes through, a short
identifier gains the GitHub base, and the empty reference derives nothing. -/
theorem repoLink_spec_witness :
    repoLink (some "https://gitlab.com/x/y") = some "https://gitlab.com/x/y"
  ∧ repoLink (some "acme/widget") = some "https://github.com/acme/widget"
  ∧ (repoLink (some "") = none ↔
      ((some "" : Option String) = none ∨ (some "" : Option String) = some "")) :=
  ⟨repoLink_spec.2.1 "https://gitlab.com/x/y" (by decide) (by decide),
   repoLink_spec.2.2 "acme/widget" (by decide) (by decide),
   repoLink_spec.1 (some "")⟩

/-- Counterexample for C7: an empty-string selectText is falsy in the
code's selectText || 'Languages', so the switcher text is "Languages", not
the configured empty string the claim's selectText ?? "Languages" would
give. -/
theorem nav_selectText_counterexample :
    (nav [] demoLocales [] "/a" [] "/" "en-US" (some "")).getLast?.bind
        RawNavRecord.text = some "Languages"
  ∧ (nav [] demoLocales [] "/a" [] "/" "en-US" (some "")).getLast?.bind
        RawNavRecord.text ≠ some "" := by
  constructor <;> decide

/-- C7 amended: the synthetic dropdown entry's text equals the configured
selectText when it is present and non-empty, and "Languages" otherwise
(JavaScript truthiness, not mere presence), both on the raw appended record
and on its resolution. -/
theorem nav_selectText
    (u : List RawNavRecord) (locales : List (String × SiteLocale))
    (themeLocales : List (String × ThemeLocale)) (currentPath : String)
    (knownRoutePaths : List String) (localePath currentLang : String)
    (selectText : Option String) (h : 1 < locales.length) :
    (nav u locales themeLocales currentPath knownRoutePaths localePath currentLang
        selectText).getLast?.bind RawNavRecord.text
      = some (orDefault selectText "Languages")
  ∧ (userLinks (nav u locales themeLocales currentPath knownRoutePaths localePath
        currentLang selectText)).getLast?.map NavEntry.text
      = some (orDefault selectText "Languages") := by
  constructor
  · rw [nav_eq_append h, List.getLast?_concat]
    rfl
  · rw [nav_eq_append h]
    simp only [userLinks, List.map_append, List.map_cons, List.map_nil]
    rw [List.getLast?_concat]
    rfl

/-- Witness for C7: a non-empty prompt is used verbatim, and an absent and
an empty prompt both fall back to "Languages". -/
theorem nav_selectText_witness :
    (nav [] demoLocales [] "/a" [] "/" "en-US" (some "Sprachen")).getLast?.bind
        RawNavRecord.text = some (orDefault (some "Sprachen") "Languages")
  ∧ (nav [] demoLocales [] "/a" [] "/" "en-US" none).getLast?.bind
        RawNavRecord.text = some (orDefault none "Languages")
  ∧ (nav [] demoLocales [] "/a" [] "/" "en-US" (some "")).getLast?.bind
        RawNavRecord.text = some (orDefault (some "") "Languages") :=
  ⟨(nav_selectText [] demoLocales [] "/a" [] "/" "en-US" (some "Sprachen") (by decide)).1,
   (nav_selectText [] demoLocales [] "/a" [] "/" "en-US" none (by decide)).1,
   (nav_selectText [] demoLocales [] "/a" [] "/" "en-US" (some "") (by decide)).1⟩

/-- C8: userLinks resolves exactly one entry per raw record, in order: the
output length equals the input length and the entry at every position is
the resolution of the record at that position. -/
theorem userLinks_shape (navList : List RawNavRecord) :
    (userLinks navList).length = navList.length
  ∧ ∀ i : Nat, (userLinks navList)[i]? = (navList[i]?).map resolveRecord := by
  refine ⟨by simp [userLinks], ?_⟩
  intro i
  simp [userLinks]

/-- C9: the nav computed property treats its base list purely: when
inactive the result is the base list itself, and when active the result is
a new sequence of the original entries, unchanged and in order, plus
exactly one appended entry. -/
theorem nav_frame
    (u : List RawNavRecord) (locales : List (String × SiteLocale))
    (themeLocales : List (String × ThemeLocale)) (currentPath : String)
    (knownRoutePaths : List String) (localePath currentLang : String)
    (selectText : Option String) :
    (locales.length ≤ 1 →
        nav u locales themeLocales currentPath knownRoutePaths localePath currentLang
          selectText = u)
  ∧ (1 < locales.length →
        nav u locales themeLocales currentPath knownRoutePaths localePath currentLang
            selectText
          = u ++ [languageDropdown locales themeLocales currentPath knownRoutePaths
                    localePath currentLang selectText]
      ∧ (nav u locales themeLocales currentPath knownRoutePaths localePath currentLang
            selectText).take u.length = u) := by
  refine ⟨fun h => nav_eq_self h, fun h => ⟨nav_eq_append h, ?_⟩⟩
  rw [nav_eq_append h]
  exact List.take_left u _

/-- Witness for C9: with one base record, the inactive case returns it
alone and the active case returns it followed by the raw dropdown. -/
theorem nav_frame_witness :
    nav [demoRecord] [] [] "/a" [] "/" "en-US" none = [demoRecord]
  ∧ (nav [demoRecord] demoLocales [] "/a" [] "/" "en-US" none
        = [demoRecord] ++ [languageDropdown demoLocales [] "/a" [] "/" "en-US" none]
    ∧ (nav [demoRecord] demoLocales [] "/a" [] "/" "en-US" none).take 1
        = [demoRecord]) := by
  constructor
  · exact (nav_frame [demoRecord] [] [] "/a" [] "/" "en-US" none).1 (by decide)
  · have h := (nav_frame [demoRecord] demoLocales [] "/a" [] "/" "en-US" none).2
      (by decide)
    simpa using h

/-- C10: The base navigation list comes from exactly one source with fixed
priority: the per-locale nav when defined (even empty, completely replacing
the site-wide nav), else the site-wide nav, else the empty list; the two
sources are never merged. -/
theorem userNav_priority :
    (∀ (l : List RawNavRecord) (s : Option (List RawNavRecord)), userNav (some l) s = l)
  ∧ (∀ s : List RawNavRecord, userNav none (some s) = s)
  ∧ userNav none none = []
  ∧ (∀ s : List RawNavRecord, userNav (some []) (some s) = []) :=
  ⟨fun _ _ => rfl, fun _ => rfl, rfl, fun _ => rfl⟩

end NavLinks
